import Mathlib

/-
Verification of the initialization facade in
`src/tracing-subscriber/src/util.rs` (the `SubscriberInitExt` extension
trait and the `TryInitError` failure wrapper).

The facade delegates to collaborators living in sibling crates of the same
repository that are not present under `src/` (the `tracing-core` dispatcher
registry and the `tracing-log` legacy bridge).  Those collaborators are
modelled from the specification; every such definition carries a doc
comment beginning `Modelled from the spec:`.  The facade itself
(`set_default`, `try_init`, `init`, `TryInitError`) is translated directly
from `util.rs`, in its `std` + `tracing-log` build (the richest
configuration); the `no_std` branches of `TryInitError`'s formatting are
modelled as the second constructor of the error type.

State is made explicit: every effectful operation takes and returns a
`TracingState` recording the process-wide global dispatcher slot, the
current scoped (thread-local) default, and the global `log` logger slot.
-/

namespace Tracing

/-- A trace dispatcher handle: an opaque backend identity together with the
maximum severity level hint the backend resolves once installed.  Stands in
for `tracing_core::dispatch::Dispatch`; conversion of a backend into a
dispatcher (`Into<Dispatch>`) is by-value and lossless, so backends are
identified with the dispatcher they convert into. -/
structure Dispatch where
  id : Nat
  maxLevelHint : Nat
deriving DecidableEq

/-- Configuration of the legacy `log` bridge: `maxLevel = none` is the
default configuration, carrying no severity threshold. -/
structure LogTracerCfg where
  maxLevel : Option Nat
deriving DecidableEq

/-- The process-wide state threaded through the facade operations:
the write-once global dispatcher slot, the scoped (thread-local) default
dispatcher, and the legacy `log` logger slot. -/
structure TracingState where
  globalDispatch : Option Dispatch
  scopedDefault : Option Dispatch
  logger : Option LogTracerCfg
deriving DecidableEq

/-- Modelled from the spec: the dispatcher registry's global-install
primitive "fails with a descriptive cause if already installed"; its only
cause is the already-set condition (`tracing-core`'s
`SetGlobalDefaultError`, not under `src/`). -/
inductive SetGlobalDefaultError where
  | alreadySet
deriving DecidableEq

/-- Modelled from the spec: the legacy-bridge initializer "fails with a
descriptive cause if a legacy bridge was already installed by another
actor" (the `log` crate's `SetLoggerError`, not under `src/`). -/
inductive SetLoggerError where
  | alreadySet
deriving DecidableEq

/-- A boxed error object, standing in for `Box<dyn Error + Send + Sync>`:
its debug text, its display text, and its own source chain. -/
inductive ErrObj where
  | mk (debug : String) (display : String) (src : Option ErrObj)

/-- Debug representation of a boxed error object. -/
def ErrObj.debugStr : ErrObj → String
  | .mk d _ _ => d

/-- Display representation of a boxed error object. -/
def ErrObj.displayStr : ErrObj → String
  | .mk _ d _ => d

/-- The error object's own next cause in its chain. -/
def ErrObj.sourceOf : ErrObj → Option ErrObj
  | .mk _ _ s => s

/-- Modelled from the spec: the boxed form of the registry's already-set
cause (its debug and display texts are placeholders for the external
crate's representations; it has no further cause). -/
def SetGlobalDefaultError.intoErrObj : SetGlobalDefaultError → ErrObj
  | .alreadySet =>
    .mk "SetGlobalDefaultError"
      "a global default trace dispatcher has already been set" none

/-- Modelled from the spec: the boxed form of the legacy bridge's
already-set cause. -/
def SetLoggerError.intoErrObj : SetLoggerError → ErrObj
  | .alreadySet =>
    .mk "SetLoggerError"
      "attempted to set a logger after the logging system was already initialized"
      none

/-- `TryInitError` from `util.rs`: with the `std` feature it boxes the
underlying cause (`inner`); without `std` it carries only `()`.  The two
compile-time builds are modelled as the two constructors. -/
inductive TryInitError where
  | std (inner : ErrObj)
  | noStd

/-- `TryInitError::new` in the `std` build: box the cause. -/
def TryInitError.new (e : ErrObj) : TryInitError := .std e

/-- The `fmt::Debug` implementation of `TryInitError`: delegates to the
boxed cause under `std`, and writes the fixed placeholder otherwise. -/
def TryInitError.fmtDebug : TryInitError → String
  | .std inner => inner.debugStr
  | .noStd => "TryInitError(())"

/-- The `fmt::Display` implementation of `TryInitError`: delegates to the
boxed cause under `std`, and writes the fixed generic message otherwise. -/
def TryInitError.fmtDisplay : TryInitError → String
  | .std inner => inner.displayStr
  | .noStd => "failed to set global default subscriber"

/-- The `Error::source` accessor of `TryInitError`: under `std` it delegates
to the boxed cause's own chain; without `std` no `Error` implementation
exists and no further cause is reported. -/
def TryInitError.source : TryInitError → Option ErrObj
  | .std inner => inner.sourceOf
  | .noStd => none

/-- Modelled from the spec: the value of the global minimum-severity query
before any global install; the query is "valid only after global install". -/
def preInstallLevel : Nat := 0

namespace dispatch

/-- Modelled from the spec: `tracing_core::dispatch::set_global_default`,
the write-once global slot with atomic compare-and-set semantics — install
if empty, fail with the already-set cause otherwise, never overwrite. -/
def set_global_default (d : Dispatch) (s : TracingState) :
    TracingState × Except SetGlobalDefaultError Unit :=
  match s.globalDispatch with
  | some _ => (s, .error .alreadySet)
  | none => ({ s with globalDispatch := some d }, .ok ())

/-- The guard returned by the scoped-install primitive: it remembers the
scoped default that was active immediately before its creation. -/
structure DefaultGuard where
  prior : Option Dispatch
deriving DecidableEq

/-- Modelled from the spec: `tracing_core::dispatch::set_default`, the
scoped-install primitive — install `d` as the scoped default and return a
restore-on-destruction guard holding the prior scoped default. -/
def set_default (d : Dispatch) (s : TracingState) :
    TracingState × DefaultGuard :=
  ({ s with scopedDefault := some d }, ⟨s.scopedDefault⟩)

/-- Modelled from the spec: destruction of a scoped-install guard restores
the scoped default that was active immediately before the guard's
creation. -/
def DefaultGuard.drop (g : DefaultGuard) (s : TracingState) : TracingState :=
  { s with scopedDefault := g.prior }

end dispatch

namespace LevelFilter

/-- Modelled from the spec: `tracing_core::LevelFilter::current`, the
"current global minimum severity" query; after a global install it reflects
the installed dispatcher's resolved hint. -/
def current (s : TracingState) : Nat :=
  match s.globalDispatch with
  | some d => d.maxLevelHint
  | none => preInstallLevel

end LevelFilter

/-- Modelled from the spec: `AsLog::as_log`, the order-preserving conversion
of a severity threshold to the legacy facility's scale, modelled as the
identity on the common numeric scale. -/
def as_log (l : Nat) : Nat := l

/-- A `tracing_log::LogTracer` builder: an optional severity threshold. -/
structure LogTracerBuilder where
  maxLevel : Option Nat
deriving DecidableEq

/-- Modelled from the spec: `LogTracer::builder()`, the bridge's builder in
its default configuration, with no severity threshold. -/
def LogTracer.builder : LogTracerBuilder := ⟨none⟩

/-- `LogTracerBuilder::with_max_level`: record the severity threshold. -/
def LogTracerBuilder.with_max_level (b : LogTracerBuilder) (l : Nat) :
    LogTracerBuilder :=
  { b with maxLevel := some l }

/-- Modelled from the spec: `LogTracerBuilder::init` — install the bridge
with the builder's configuration, failing with the already-set cause if a
legacy logger was already installed by any actor. -/
def LogTracerBuilder.init (b : LogTracerBuilder) (s : TracingState) :
    TracingState × Except SetLoggerError Unit :=
  match s.logger with
  | some _ => (s, .error .alreadySet)
  | none => ({ s with logger := some ⟨b.maxLevel⟩ }, .ok ())

/-- Modelled from the spec: `LogTracer::init()`, the default-configuration
initializer of the bridge. -/
def LogTracer.init (s : TracingState) :
    TracingState × Except SetLoggerError Unit :=
  LogTracerBuilder.init LogTracer.builder s

namespace SubscriberInitExt

/-- `SubscriberInitExt::set_default` from `util.rs` (std + tracing-log
build): first a best-effort `LogTracer::init()` whose result is discarded
by `let _ = ...`, then the scoped install of `self`. -/
def set_default (self : Dispatch) (s : TracingState) :
    TracingState × dispatch.DefaultGuard :=
  let s1 := (LogTracer.init s).1
  dispatch.set_default self s1

/-- `SubscriberInitExt::try_init` from `util.rs` (std + tracing-log build):
global install first (propagating its failure boxed in a `TryInitError`);
then, only on success and only when `with_logger` is set, the bridge is
initialized with the just-queried current level as its threshold. -/
def try_init (self : Dispatch) (with_logger : Bool) (s : TracingState) :
    TracingState × Except TryInitError Unit :=
  match dispatch.set_global_default self s with
  | (s1, .error e) => (s1, .error (TryInitError.new e.intoErrObj))
  | (s1, .ok _) =>
    if with_logger then
      match
        (LogTracer.builder.with_max_level
          (as_log (LevelFilter.current s1))).init s1 with
      | (s2, .error e) => (s2, .error (TryInitError.new e.intoErrObj))
      | (s2, .ok _) => (s2, .ok ())
    else
      (s1, .ok ())

/-- The message `util.rs` passes to `expect` in `init`. -/
def expectMsg : String := "failed to set global default subscriber"

/-- `SubscriberInitExt::init` from `util.rs`: exactly `try_init`, with any
failure escalated by `Result::expect` to a panic; the panic is modelled as
the `Except.error` carrying `expect`'s message followed by the debug text
of the failure, and a normal return as `Except.ok ()`. -/
def init (self : Dispatch) (with_logger : Bool) (s : TracingState) :
    TracingState × Except String Unit :=
  match try_init self with_logger s with
  | (s1, .ok _) => (s1, .ok ())
  | (s1, .error e) => (s1, .error (expectMsg ++ ": " ++ e.fmtDebug))

end SubscriberInitExt

/-- An operation of the facade, for reasoning about arbitrary sequences of
calls performed after a first installation. -/
inductive Op where
  | tryInitOp (d : Dispatch) (w : Bool)
  | initOp (d : Dispatch) (w : Bool)
  | setDefaultOp (d : Dispatch)
  | dropOp (g : dispatch.DefaultGuard)

/-- The state transformer of one facade operation. -/
def step (s : TracingState) : Op → TracingState
  | .tryInitOp d w => (SubscriberInitExt.try_init d w s).1
  | .initOp d w => (SubscriberInitExt.init d w s).1
  | .setDefaultOp d => (SubscriberInitExt.set_default d s).1
  | .dropOp g => dispatch.DefaultGuard.drop g s

/-- Run a sequence of facade operations from a state. -/
def run (s : TracingState) : List Op → TracingState
  | [] => s
  | op :: ops => run (step s op) ops

/-- Modelled from the spec: an interleaving of concurrent global-install
attempts is, by the registry's linearizable compare-and-set semantics, a
sequence of atomic installs executed in some order; each attempt here is
`try_init` on the pure global-install path (bridge flag false).  Returns
the final state and every attempt's result, in linearization order. -/
def raceTryInit (s : TracingState) :
    List Dispatch → TracingState × List (Except TryInitError Unit)
  | [] => (s, [])
  | d :: ds =>
    let r := SubscriberInitExt.try_init d false s
    let rest := raceTryInit r.1 ds
    (rest.1, r.2 :: rest.2)

/-! Helper lemmas, shared by the claim theorems. -/

/-- When the global slot is already filled, `try_init` returns the state
unchanged together with the Global-already-set failure wrapper. -/
theorem try_init_filled_helper (d g : Dispatch) (w : Bool) (s : TracingState)
    (h : s.globalDispatch = some g) :
    SubscriberInitExt.try_init d w s =
      (s, .error (TryInitError.new SetGlobalDefaultError.alreadySet.intoErrObj)) := by
  simp [SubscriberInitExt.try_init, dispatch.set_global_default, h]

/-- When the global slot is empty, `try_init` without the bridge succeeds
and only fills the slot. -/
theorem try_init_empty_noBridge (d : Dispatch) (s : TracingState)
    (h : s.globalDispatch = none) :
    SubscriberInitExt.try_init d false s =
      ({ s with globalDispatch := some d }, .ok ()) := by
  simp [SubscriberInitExt.try_init, dispatch.set_global_default, h]

/-- When the global slot is empty and no legacy logger is installed,
`try_init` with the bridge succeeds, fills the slot, and installs the
bridge with the just-installed dispatcher's level hint as threshold. -/
theorem try_init_empty_bridge_ok (d : Dispatch) (s : TracingState)
    (hg : s.globalDispatch = none) (hl : s.logger = none) :
    SubscriberInitExt.try_init d true s =
      ({ s with
          globalDispatch := some d
          logger := some ⟨some (as_log d.maxLevelHint)⟩ }, .ok ()) := by
  simp [SubscriberInitExt.try_init, dispatch.set_global_default, hg,
    LogTracerBuilder.init, LogTracerBuilder.with_max_level, LogTracer.builder,
    LevelFilter.current, as_log, hl]

/-- When the global slot is empty but a legacy logger is already installed,
`try_init` with the bridge fills the slot yet reports the bridge's failure. -/
theorem try_init_empty_bridge_fail (d : Dispatch) (c : LogTracerCfg)
    (s : TracingState) (hg : s.globalDispatch = none) (hl : s.logger = some c) :
    SubscriberInitExt.try_init d true s =
      ({ s with globalDispatch := some d },
        .error (TryInitError.new SetLoggerError.alreadySet.intoErrObj)) := by
  simp [SubscriberInitExt.try_init, dispatch.set_global_default, hg,
    LogTracerBuilder.init, LogTracerBuilder.with_max_level, LogTracer.builder,
    LevelFilter.current, as_log, hl]

/-- When the global slot is empty, `try_init` fills it with the given
dispatcher, whatever the bridge flag and the logger state. -/
theorem try_init_empty_global (d : Dispatch) (w : Bool) (s : TracingState)
    (h : s.globalDispatch = none) :
    (SubscriberInitExt.try_init d w s).1.globalDispatch = some d := by
  cases w with
  | false => rw [try_init_empty_noBridge d s h]
  | true =>
    cases hl : s.logger with
    | none => rw [try_init_empty_bridge_ok d s h hl]
    | some c => rw [try_init_empty_bridge_fail d c s h hl]

/-- A successful `try_init` has filled the global slot with its dispatcher. -/
theorem try_init_ok_global (d : Dispatch) (w : Bool) (s : TracingState)
    (h : (SubscriberInitExt.try_init d w s).2 = .ok ()) :
    (SubscriberInitExt.try_init d w s).1.globalDispatch = some d := by
  cases hG : s.globalDispatch with
  | none => exact try_init_empty_global d w s hG
  | some g => rw [try_init_filled_helper d g w s hG] at h; simp at h

/-- No facade operation ever empties or overwrites a filled global slot. -/
theorem step_globalDispatch (s : TracingState) (g : Dispatch) (op : Op)
    (h : s.globalDispatch = some g) : (step s op).globalDispatch = some g := by
  cases op with
  | tryInitOp d w => rw [step, try_init_filled_helper d g w s h]; exact h
  | initOp d w =>
    rw [step, SubscriberInitExt.init]
    rw [try_init_filled_helper d g w s h]
    exact h
  | setDefaultOp d =>
    cases hl : s.logger <;>
      simp [step, SubscriberInitExt.set_default, dispatch.set_default,
        LogTracer.init, LogTracerBuilder.init, LogTracer.builder, hl, h]
  | dropOp gd => simp [step, dispatch.DefaultGuard.drop, h]

/-- No sequence of facade operations ever empties or overwrites a filled
global slot. -/
theorem run_globalDispatch (s : TracingState) (g : Dispatch) (ops : List Op)
    (h : s.globalDispatch = some g) : (run s ops).globalDispatch = some g := by
  induction ops generalizing s with
  | nil => exact h
  | cons op ops ih => exact ih (step s op) (step_globalDispatch s g op h)

/-- Once the global slot is filled, every attempt in a race fails with the
Global-already-set wrapper and the state is untouched. -/
theorem raceTryInit_filled (g : Dispatch) (s : TracingState)
    (h : s.globalDispatch = some g) (ds : List Dispatch) :
    raceTryInit s ds =
      (s, ds.map (fun _ =>
        .error (TryInitError.new SetGlobalDefaultError.alreadySet.intoErrObj))) := by
  induction ds with
  | nil => simp [raceTryInit]
  | cons d ds ih =>
    simp [raceTryInit, try_init_filled_helper d g false s h, ih]

/-! Claim theorems. -/

/-- C1: after a first successful `try_init`, the global slot is write-once
for the life of the process: across every subsequent sequence of facade
operations the slot still holds the winning dispatcher (it never empties
and is never overwritten), and every subsequent `try_init`, on any backend
and any bridge flag, leaves the state unchanged and fails deterministically
with the Global-already-set failure wrapper. -/
theorem try_init_write_once (d0 : Dispatch) (w0 : Bool) (s0 : TracingState)
    (h : (SubscriberInitExt.try_init d0 w0 s0).2 = .ok ()) :
    ∀ (ops : List Op) (d : Dispatch) (w : Bool),
      (run (SubscriberInitExt.try_init d0 w0 s0).1 ops).globalDispatch = some d0 ∧
      SubscriberInitExt.try_init d w
          (run (SubscriberInitExt.try_init d0 w0 s0).1 ops) =
        (run (SubscriberInitExt.try_init d0 w0 s0).1 ops,
          .error (TryInitError.new SetGlobalDefaultError.alreadySet.intoErrObj)) := by
  intro ops d w
  have hrun :=
    run_globalDispatch (SubscriberInitExt.try_init d0 w0 s0).1 d0 ops
      (try_init_ok_global d0 w0 s0 h)
  exact ⟨hrun, try_init_filled_helper d d0 w _ hrun⟩

/-- Witness for C1 at a fresh state: the first call succeeds and a second
call on another backend fails with the Global-already-set wrapper. -/
theorem try_init_write_once_witness :
    (SubscriberInitExt.try_init ⟨1, 4⟩ false ⟨none, none, none⟩).2 = .ok () ∧
    SubscriberInitExt.try_init ⟨2, 5⟩ true
        (run (SubscriberInitExt.try_init ⟨1, 4⟩ false ⟨none, none, none⟩).1 []) =
      (run (SubscriberInitExt.try_init ⟨1, 4⟩ false ⟨none, none, none⟩).1 [],
        .error (TryInitError.new SetGlobalDefaultError.alreadySet.intoErrObj)) :=
  ⟨rfl, (try_init_write_once ⟨1, 4⟩ false ⟨none, none, none⟩ rfl [] ⟨2, 5⟩ true).2⟩

/-- C2: in `try_init` with the bridge requested, on the successful path the
bridge's threshold is exactly the global severity queried after the global
write (the level reflecting the just-installed dispatcher, not a default or
pre-install value), and when the global write fails the state — the logger
slot included — is completely untouched, so no query is observable. -/
theorem bridge_level_after_global_write (d : Dispatch) (s : TracingState) :
    (s.globalDispatch = none → s.logger = none →
      ((SubscriberInitExt.try_init d true s).1.globalDispatch = some d ∧
        (SubscriberInitExt.try_init d true s).1.logger =
          some ⟨some (as_log
            (LevelFilter.current (SubscriberInitExt.try_init d true s).1))⟩ ∧
        LevelFilter.current (SubscriberInitExt.try_init d true s).1 =
          d.maxLevelHint ∧
        (SubscriberInitExt.try_init d true s).2 = .ok ())) ∧
    (∀ g : Dispatch, s.globalDispatch = some g →
      SubscriberInitExt.try_init d true s =
        (s, .error (TryInitError.new SetGlobalDefaultError.alreadySet.intoErrObj))) := by
  constructor
  · intro hg hl
    rw [try_init_empty_bridge_ok d s hg hl]
    simp [LevelFilter.current, as_log]
  · intro g hg
    exact try_init_filled_helper d g true s hg

/-- Witness for C2 at a fresh state and a backend with level hint 3. -/
theorem bridge_level_after_global_write_witness :
    (SubscriberInitExt.try_init ⟨7, 3⟩ true ⟨none, none, none⟩).1.logger =
      some ⟨some (as_log
        (LevelFilter.current (SubscriberInitExt.try_init ⟨7, 3⟩ true ⟨none, none, none⟩).1))⟩ ∧
    LevelFilter.current (SubscriberInitExt.try_init ⟨7, 3⟩ true ⟨none, none, none⟩).1 = 3 :=
  ⟨((bridge_level_after_global_write ⟨7, 3⟩ ⟨none, none, none⟩).1 rfl rfl).2.1,
    ((bridge_level_after_global_write ⟨7, 3⟩ ⟨none, none, none⟩).1 rfl rfl).2.2.1⟩

/-- C3: when the global write succeeds but the bridge initialization fails,
`try_init` returns the failure wrapper carrying the bridge's cause, yet the
global slot stays permanently filled with the installed dispatcher: after
any further sequence of facade operations, any global-install attempt still
fails with the Global-already-set wrapper. -/
theorem no_rollback_on_bridge_failure (d : Dispatch) (c : LogTracerCfg)
    (s : TracingState) (hg : s.globalDispatch = none) (hl : s.logger = some c) :
    (SubscriberInitExt.try_init d true s).2 =
      .error (TryInitError.new SetLoggerError.alreadySet.intoErrObj) ∧
    (SubscriberInitExt.try_init d true s).1.globalDispatch = some d ∧
    ∀ (ops : List Op) (d2 : Dispatch) (w2 : Bool),
      SubscriberInitExt.try_init d2 w2
          (run (SubscriberInitExt.try_init d true s).1 ops) =
        (run (SubscriberInitExt.try_init d true s).1 ops,
          .error (TryInitError.new SetGlobalDefaultError.alreadySet.intoErrObj)) := by
  rw [try_init_empty_bridge_fail d c s hg hl]
  refine ⟨rfl, rfl, ?_⟩
  intro ops d2 w2
  exact try_init_filled_helper d2 d w2 _
    (run_globalDispatch _ d ops rfl)

/-- Witness for C3: fresh global slot but a logger already installed. -/
theorem no_rollback_on_bridge_failure_witness :
    (SubscriberInitExt.try_init ⟨1, 2⟩ true ⟨none, none, some ⟨none⟩⟩).2 =
      .error (TryInitError.new SetLoggerError.alreadySet.intoErrObj) ∧
    (SubscriberInitExt.try_init ⟨1, 2⟩ true ⟨none, none, some ⟨none⟩⟩).1.globalDispatch =
      some ⟨1, 2⟩ :=
  ⟨(no_rollback_on_bridge_failure ⟨1, 2⟩ ⟨none⟩ ⟨none, none, some ⟨none⟩⟩ rfl rfl).1,
    (no_rollback_on_bridge_failure ⟨1, 2⟩ ⟨none⟩ ⟨none, none, some ⟨none⟩⟩ rfl rfl).2.1⟩

/-- C4: when the global slot is already filled, `try_init` returns the
Global-already-set failure wrapper and performs no side effect at all: the
returned state is exactly the input state (in particular the logger slot is
untouched and no severity query is observable), for every backend and both
values of the bridge flag. -/
theorem already_set_no_side_effect (d g : Dispatch) (w : Bool)
    (s : TracingState) (h : s.globalDispatch = some g) :
    SubscriberInitExt.try_init d w s =
      (s, .error (TryInitError.new SetGlobalDefaultError.alreadySet.intoErrObj)) :=
  try_init_filled_helper d g w s h

/-- Witness for C4 at a filled slot, with the bridge requested. -/
theorem already_set_no_side_effect_witness :
    SubscriberInitExt.try_init ⟨5, 1⟩ true ⟨some ⟨0, 0⟩, none, none⟩ =
      (⟨some ⟨0, 0⟩, none, none⟩,
        .error (TryInitError.new SetGlobalDefaultError.alreadySet.intoErrObj)) :=
  already_set_no_side_effect ⟨5, 1⟩ ⟨0, 0⟩ true ⟨some ⟨0, 0⟩, none, none⟩ rfl

/-- C5: on every backend, bridge flag and state, `init` behaves exactly as
`try_init`: it performs the same state change, returns normally precisely
when `try_init` returns `Ok`, and escalates any `Err` to the panic carrying
the explanatory `expect` message followed by the failure's debug text —
never returning a failure value. -/
theorem init_refines_try_init (d : Dispatch) (w : Bool) (s : TracingState) :
    (SubscriberInitExt.init d w s).1 = (SubscriberInitExt.try_init d w s).1 ∧
    ((SubscriberInitExt.init d w s).2 = .ok () ↔
      (SubscriberInitExt.try_init d w s).2 = .ok ()) ∧
    ∀ e : TryInitError, (SubscriberInitExt.try_init d w s).2 = .error e →
      (SubscriberInitExt.init d w s).2 =
        .error (SubscriberInitExt.expectMsg ++ ": " ++ e.fmtDebug) := by
  rcases hr : SubscriberInitExt.try_init d w s with ⟨s1, r⟩
  rw [SubscriberInitExt.init, hr]
  cases r with
  | ok u => cases u; simp
  | error e =>
    refine ⟨rfl, by simp, ?_⟩
    intro e2 he2
    simp only [Except.error.injEq] at he2
    rw [he2]

/-- Witness for C5 at a filled slot: `try_init` fails and `init` panics
with the explanatory message. -/
theorem init_refines_try_init_witness :
    (SubscriberInitExt.init ⟨1, 2⟩ true ⟨some ⟨0, 0⟩, none, none⟩).2 =
      .error (SubscriberInitExt.expectMsg ++ ": " ++
        (TryInitError.new SetGlobalDefaultError.alreadySet.intoErrObj).fmtDebug) :=
  (init_refines_try_init ⟨1, 2⟩ true ⟨some ⟨0, 0⟩, none, none⟩).2.2
    (TryInitError.new SetGlobalDefaultError.alreadySet.intoErrObj) rfl

/-- C6: `set_default` never fails: on every backend and every state it
returns the guard recording the prior scoped default and installs the
backend as the scoped default; under the bridge-failure condition (a logger
already installed) the only state change is the scoped install itself, so
the bridge failure is silently discarded and never surfaced. -/
theorem set_default_never_fails (d : Dispatch) (s : TracingState) :
    (SubscriberInitExt.set_default d s).2 = ⟨s.scopedDefault⟩ ∧
    (SubscriberInitExt.set_default d s).1.scopedDefault = some d ∧
    (SubscriberInitExt.set_default d s).1.globalDispatch = s.globalDispatch ∧
    ∀ c : LogTracerCfg, s.logger = some c →
      (SubscriberInitExt.set_default d s).1 = { s with scopedDefault := some d } := by
  cases hl : s.logger <;>
    simp [SubscriberInitExt.set_default, dispatch.set_default,
      LogTracer.init, LogTracerBuilder.init, LogTracer.builder, hl]

/-- Witness for C6 with a logger already installed (the bridge-failure
condition): the scoped install still happens and nothing else changes. -/
theorem set_default_never_fails_witness :
    (SubscriberInitExt.set_default ⟨3, 1⟩ ⟨none, some ⟨9, 9⟩, some ⟨none⟩⟩).1 =
      ⟨none, some ⟨3, 1⟩, some ⟨none⟩⟩ :=
  (set_default_never_fails ⟨3, 1⟩ ⟨none, some ⟨9, 9⟩, some ⟨none⟩⟩).2.2.2 ⟨none⟩ rfl

/-- C7: the guard returned by `set_default` restores on destruction exactly
the scoped default active immediately before the call: an immediate drop
leaves the scoped default unchanged; with two nested guards, dropping the
inner one reveals the outer install and dropping the outer one restores the
original state; and the guard restores its own prior whatever the state at
destruction time (stack discipline, destruction safe each time it runs). -/
theorem guard_restores_prior (d1 d2 : Dispatch) (s : TracingState) :
    (dispatch.DefaultGuard.drop (SubscriberInitExt.set_default d1 s).2
        (SubscriberInitExt.set_default d1 s).1).scopedDefault = s.scopedDefault ∧
    (dispatch.DefaultGuard.drop
        (SubscriberInitExt.set_default d2 (SubscriberInitExt.set_default d1 s).1).2
        (SubscriberInitExt.set_default d2
          (SubscriberInitExt.set_default d1 s).1).1).scopedDefault = some d1 ∧
    (dispatch.DefaultGuard.drop (SubscriberInitExt.set_default d1 s).2
        (dispatch.DefaultGuard.drop
          (SubscriberInitExt.set_default d2 (SubscriberInitExt.set_default d1 s).1).2
          (SubscriberInitExt.set_default d2
            (SubscriberInitExt.set_default d1 s).1).1)).scopedDefault =
      s.scopedDefault ∧
    ∀ t : TracingState,
      (dispatch.DefaultGuard.drop
        (SubscriberInitExt.set_default d1 s).2 t).scopedDefault = s.scopedDefault := by
  cases hl : s.logger <;>
    simp [SubscriberInitExt.set_default, dispatch.set_default,
      dispatch.DefaultGuard.drop, LogTracer.init, LogTracerBuilder.init,
      LogTracer.builder, hl]

/-- C8: `TryInitError` presents the same external shape in both builds: its
debug and display views delegate to the wrapped cause under `std` and
otherwise produce the fixed strings, and its source accessor delegates to
the wrapped cause's own chain under `std` and reports no further cause
otherwise. -/
theorem try_init_error_shape (e : ErrObj) :
    (TryInitError.std e).fmtDebug = e.debugStr ∧
    (TryInitError.std e).fmtDisplay = e.displayStr ∧
    (TryInitError.std e).source = e.sourceOf ∧
    TryInitError.noStd.fmtDebug = "TryInitError(())" ∧
    TryInitError.noStd.fmtDisplay = "failed to set global default subscriber" ∧
    TryInitError.noStd.source = none :=
  ⟨rfl, rfl, rfl, rfl, rfl, rfl⟩

/-- C9: for every linearization order of a nonempty set of concurrent
global-install attempts on a fresh slot, exactly the first attempt in the
order succeeds, every other attempt fails with the Global-already-set
wrapper, and the permanently installed dispatcher is the single winner's. -/
theorem race_single_winner (s : TracingState) (h : s.globalDispatch = none)
    (d : Dispatch) (ds : List Dispatch) :
    (raceTryInit s (d :: ds)).2 =
      .ok () :: ds.map (fun _ =>
        .error (TryInitError.new SetGlobalDefaultError.alreadySet.intoErrObj)) ∧
    (raceTryInit s (d :: ds)).1.globalDispatch = some d := by
  have hfirst := try_init_empty_noBridge d s h
  have hrest :=
    raceTryInit_filled d { s with globalDispatch := some d } rfl ds
  constructor
  · simp [raceTryInit, hfirst, hrest]
  · simp [raceTryInit, hfirst, hrest]

/-- Witness for C9: three racing attempts on a fresh state, first wins. -/
theorem race_single_winner_witness :
    (raceTryInit ⟨none, none, none⟩ [⟨1, 0⟩, ⟨2, 0⟩, ⟨3, 0⟩]).2 =
      [.ok (),
        .error (TryInitError.new SetGlobalDefaultError.alreadySet.intoErrObj),
        .error (TryInitError.new SetGlobalDefaultError.alreadySet.intoErrObj)] ∧
    (raceTryInit ⟨none, none, none⟩ [⟨1, 0⟩, ⟨2, 0⟩, ⟨3, 0⟩]).1.globalDispatch =
      some ⟨1, 0⟩ := by
  have h := race_single_winner ⟨none, none, none⟩ rfl ⟨1, 0⟩ [⟨2, 0⟩, ⟨3, 0⟩]
  exact ⟨by rw [h.1]; rfl, h.2⟩

/-- C10: `set_default` initializes the bridge in its default configuration,
before and independently of the scoped install: the resulting logger slot
equals what the default-configuration bridge initializer alone produces, is
the same whatever backend is being installed, and on a fresh logger slot
carries no severity threshold — whereas `try_init` with the bridge flag
configures the bridge from the dispatcher it has just installed. -/
theorem set_default_bridge_default_config (d d2 : Dispatch) (s : TracingState) :
    (SubscriberInitExt.set_default d s).1.logger = (LogTracer.init s).1.logger ∧
    (SubscriberInitExt.set_default d s).1.logger =
      (SubscriberInitExt.set_default d2 s).1.logger ∧
    (s.logger = none →
      (SubscriberInitExt.set_default d s).1.logger = some ⟨none⟩) ∧
    (s.globalDispatch = none → s.logger = none →
      (SubscriberInitExt.try_init d true s).1.logger =
        some ⟨some (as_log d.maxLevelHint)⟩) := by
  refine ⟨?_, ?_, ?_, ?_⟩
  · cases hl : s.logger <;>
      simp [SubscriberInitExt.set_default, dispatch.set_default,
        LogTracer.init, LogTracerBuilder.init, LogTracer.builder, hl]
  · cases hl : s.logger <;>
      simp [SubscriberInitExt.set_default, dispatch.set_default,
        LogTracer.init, LogTracerBuilder.init, LogTracer.builder, hl]
  · intro hl
    simp [SubscriberInitExt.set_default, dispatch.set_default,
      LogTracer.init, LogTracerBuilder.init, LogTracer.builder, hl]
  · intro hg hl
    rw [try_init_empty_bridge_ok d s hg hl]

/-- Witness for C10 at a fresh state: scoped install leaves a bridge with
no threshold, while the fallible global install sets the threshold from the
installed dispatcher's hint. -/
theorem set_default_bridge_default_config_witness :
    (SubscriberInitExt.set_default ⟨1, 4⟩ ⟨none, none, none⟩).1.logger =
      some ⟨none⟩ ∧
    (SubscriberInitExt.try_init ⟨1, 4⟩ true ⟨none, none, none⟩).1.logger =
      some ⟨some (as_log 4)⟩ :=
  ⟨(set_default_bridge_default_config ⟨1, 4⟩ ⟨2, 5⟩ ⟨none, none, none⟩).2.2.1 rfl,
    (set_default_bridge_default_config ⟨1, 4⟩ ⟨2, 5⟩ ⟨none, none, none⟩).2.2.2 rfl rfl⟩

end Tracing
